import Mathlib

/-!
Shallow embedding of the ingestion pipeline of `scripts/fetch_and_insert_games.py`
(LightRAG repository): the pydantic `GameReview` data model with its
`convert_float_scores` post-validation hook, the threshold-tolerant validator
`safe_validate_reviews`, the caching fetcher `fetch_game_reviews`, the text
normalizer `prepare_review_text`, the completion wrapper
`gpt4o_mini_complete_with_retries`, and the per-game driver loop of `main`.

Python floats are modeled as exact rationals; `None` as `Option.none`; a raised
exception as the `error` side of `Except`; the on-disk cache as an association
list inside an explicit state record that also counts remote requests and cache
writes.  The external pydantic call `GameReview.model_validate` on one raw
record is a parameter (`mv : α → Option GameReview`, `none` = the record raised
a validation error), because pydantic is an external library, not repository
code; everything the repository itself does with its result is translated
literally.
-/

namespace LightRAG

/-- A Python numeric value as it sits in a field annotated `Optional[float]` or
`Optional[int]`: either an `int` or a `float` (modeled as an exact rational). -/
inductive PyNum where
  | int (n : ℤ)
  | float (q : ℚ)
deriving DecidableEq, Repr

/-- `class Game(BaseModel)`: `id: int`, `name: str`. -/
structure Game where
  id : ℤ
  name : String
deriving DecidableEq, Repr

/-- `class Outlet(BaseModel)` (the `imageSrc` field is never read by the
pipeline and is omitted). -/
structure Outlet where
  id : ℤ
  name : String
  isContributor : Bool
deriving DecidableEq, Repr

/-- `class ScoreFormat(BaseModel)`; only the fields the pipeline reads or that
shape the record are kept (`options`/`isStars`/`numDecimals`/`base` are never
read downstream and are omitted). -/
structure ScoreFormat where
  id : ℤ
  name : String
  shortName : String
  scoreDisplay : Option String
  isNumeric : Bool
  isSelect : Bool
deriving DecidableEq, Repr

/-- `class Author(BaseModel)`: `id: int`, `name: str` (image fields omitted,
never read). -/
structure Author where
  id : ℤ
  name : String
deriving DecidableEq, Repr

/-- `class Platform(BaseModel)`. -/
structure Platform where
  id : ℤ
  name : String
  shortName : String
deriving DecidableEq, Repr

/-- A Python `datetime` value, to the fields `strftime` can render. -/
structure DateTime where
  year : ℕ
  month : ℕ
  day : ℕ
  hour : ℕ
  minute : ℕ
  second : ℕ
deriving DecidableEq, Repr

/-- `class GameReview(BaseModel)` of the source.  `score` is annotated
`Optional[float]` and `npScore` `Optional[int]`; both are modeled as
`Option PyNum` so that the `isinstance(..., float)` tests of
`convert_float_scores` are expressible exactly as written. -/
structure GameReview where
  Outlet : Outlet
  ScoreFormat : ScoreFormat
  game : Game
  overrideRecommendation : Bool
  isChosen : Bool
  title : Option String
  publishedDate : DateTime
  externalUrl : String
  snippet : Option String
  language : String
  score : Option PyNum
  npScore : Option PyNum
  Authors : List Author
  Platforms : List Platform
deriving DecidableEq, Repr

/-- Python `int()` applied to a float: truncation toward zero. -/
def truncToInt (q : ℚ) : ℤ :=
  if 0 ≤ q then ⌊q⌋ else ⌈q⌉

/-- The `@model_validator(mode='after') def convert_float_scores(self)` hook of
`GameReview`: if `score` is a float it is replaced by `int(score)`, then the
same for `npScore`; anything else is left untouched. -/
def convert_float_scores (r : GameReview) : GameReview :=
  let r1 :=
    match r.score with
    | some (PyNum.float q) => { r with score := some (PyNum.int (truncToInt q)) }
    | _ => r
  match r1.npScore with
  | some (PyNum.float q) => { r1 with npScore := some (PyNum.int (truncToInt q)) }
  | _ => r1

/-- One pass of the accumulation loop of `safe_validate_reviews`: the pair is
(`validated_reviews`, `error_count`); a record whose `model_validate` raises
(`mv rd = none`) is counted, a successful one is appended. -/
def validateStep (mv : α → Option GameReview) (acc : List GameReview × ℕ) (rd : α) :
    List GameReview × ℕ :=
  match mv rd with
  | some review => (acc.1 ++ [review], acc.2)
  | none => (acc.1, acc.2 + 1)

/-- `safe_validate_reviews(data)` of the source: validate each record
independently, count failures, and raise
`ValueError` when `error_count > len(data) * 0.1` (the float arithmetic of
`len(data) * 0.1` is modeled by the exact rational `data.length * (1/10)`;
for every list length below `2 ^ 50` the IEEE-double comparison of the source
decides exactly as the rational one, since `error_count` is an integer and the
rounding error of `n * 0.1` never moves the product across an integer).
`mv` stands for the external `GameReview.model_validate`. -/
def safe_validate_reviews (mv : α → Option GameReview) (data : List α) :
    Except String (List GameReview) :=
  let res := data.foldl (validateStep mv) ([], 0)
  if ((res.2 : ℚ)) > (data.length : ℚ) * (1 / 10) then
    Except.error "Too many validation errors"
  else
    Except.ok res.1

/-- Number of records of `data` whose `model_validate` raises. -/
def errorCount (mv : α → Option GameReview) (data : List α) : ℕ :=
  data.countP (fun rd => (mv rd).isNone)

/-- Errors the fetcher can raise: a non-success upstream status surfaced by
`response.raise_for_status()`, or the `ValueError` of `safe_validate_reviews`. -/
inductive FetchError where
  | remoteError
  | validationRejected (msg : String)
deriving DecidableEq, Repr

/-- The world `fetch_game_reviews` touches: the on-disk cache directory (one
entry per game id), plus counters of remote requests issued and cache files
written, used to state the frame conditions. -/
structure FetchState (α : Type) where
  cache : List (String × List α)
  requests : ℕ
  writes : ℕ

/-- `fetch_game_reviews(game_id, cache_dir)` of the source: on a cache hit,
validate the cached payload (no request, no write); on a miss, issue one GET
(`remote game_id`, where `none` models a non-success status raised by
`raise_for_status` before anything is cached), cache the body, then validate.
Returns the result (or raised error) together with the updated world. -/
def fetch_game_reviews (mv : α → Option GameReview) (remote : String → Option (List α))
    (game_id : String) (s : FetchState α) :
    Except FetchError (List GameReview) × FetchState α :=
  match s.cache.lookup game_id with
  | some data =>
      (match safe_validate_reviews mv data with
       | Except.ok reviews => Except.ok reviews
       | Except.error m => Except.error (FetchError.validationRejected m), s)
  | none =>
      match remote game_id with
      | none => (Except.error FetchError.remoteError, { s with requests := s.requests + 1 })
      | some data =>
          let s1 : FetchState α :=
            { s with
              requests := s.requests + 1
              cache := (game_id, data) :: s.cache
              writes := s.writes + 1 }
          (match safe_validate_reviews mv data with
           | Except.ok reviews => Except.ok reviews
           | Except.error m => Except.error (FetchError.validationRejected m), s1)

/-- Python f-string rendering of an `Optional[str]` value: `None` prints as the
four letters `None`. -/
def pyOptStr : Option String → String
  | none => "None"
  | some t => t

/-- Python f-string rendering of the `score` field.  After validation the value
is an int or `None`; the float branch (never reached on validated records,
`convert_float_scores` having run) is rendered with Lean's rational printer and
is not a bit-for-bit model of CPython's float repr. -/
def pyScoreStr : Option PyNum → String
  | none => "None"
  | some (PyNum.int n) => toString n
  | some (PyNum.float q) => toString q

/-- Two-digit zero padding, as `strftime` does for `%m` and `%d`. -/
def pad2 (n : ℕ) : String :=
  if n < 10 then "0" ++ toString n else toString n

/-- `publishedDate.strftime('%Y-%m-%d')`. -/
def strftimeYMD (d : DateTime) : String :=
  toString d.year ++ "-" ++ pad2 d.month ++ "-" ++ pad2 d.day

/-- The separator `"-" * 80`. -/
def sepLine : String :=
  String.mk (List.replicate 80 (Char.ofNat 45))

/-- The ten strings `prepare_review_text` appends to `text_parts` for one
review, in source order; each ends with the explicit `\n` of the f-string. -/
def recordParts (review : GameReview) : List String :=
  [ "Game Review: " ++ review.game.name ++ "\n",
    "Title: " ++ pyOptStr review.title ++ "\n",
    "Outlet: " ++ review.Outlet.name ++ "\n",
    "Author(s): " ++ String.intercalate ", " (review.Authors.map Author.name) ++ "\n",
    "Published: " ++ strftimeYMD review.publishedDate ++ "\n",
    "Platform(s): " ++ String.intercalate ", " (review.Platforms.map Platform.name) ++ "\n",
    "Score: " ++ pyScoreStr review.score ++ " (" ++ pyOptStr review.ScoreFormat.scoreDisplay ++ ")" ++ "\n",
    "Review Text: " ++ pyOptStr review.snippet ++ "\n",
    "URL: " ++ review.externalUrl ++ "\n",
    sepLine ++ "\n" ]

/-- `prepare_review_text(reviews)` of the source: the loop fills one flat
`text_parts` list (ten parts per review, input order) and the function returns
`"\n".join(text_parts)`. -/
def prepare_review_text (reviews : List GameReview) : String :=
  String.intercalate "\n" (reviews.flatMap recordParts)

/-- The argument record the wrapper hands to the underlying
`gpt_4o_mini_complete` call: the four pass-through parameters plus the
`max_retries` value injected through `openai_kwargs`. -/
structure CompletionArgs where
  prompt : String
  system_prompt : Option String
  history_messages : List String
  keyword_extraction : Bool
  max_retries : ℕ
deriving DecidableEq, Repr

/-- One `log.error` line of the wrapper's except-branch: the approximate token
count `len(prompt) // 4` and the other call context it interpolates. -/
structure ErrorLog where
  tokens : ℕ
  system_prompt : Option String
  history_messages : List String
  keyword_extraction : Bool
deriving DecidableEq, Repr

/-- `gpt4o_mini_complete_with_retries` of the source: call
`gpt_4o_mini_complete` (the parameter `underlying`, external) with the four
arguments and `openai_kwargs={"max_retries": 0}`; on success return its result
with nothing logged; on an exception, log the structured diagnostic and
re-raise the same exception.  The second component is the list of log lines
emitted. -/
def gpt4o_mini_complete_with_retries (underlying : CompletionArgs → Except ε String)
    (prompt : String) (system_prompt : Option String) (history_messages : List String)
    (keyword_extraction : Bool) : Except ε String × List ErrorLog :=
  let args : CompletionArgs :=
    { prompt := prompt
      system_prompt := system_prompt
      history_messages := history_messages
      keyword_extraction := keyword_extraction
      max_retries := 0 }
  match underlying args with
  | Except.ok s => (Except.ok s, [])
  | Except.error e =>
      (Except.error e,
       [{ tokens := prompt.length / 4
          system_prompt := system_prompt
          history_messages := history_messages
          keyword_extraction := keyword_extraction }])

/-- The per-game loop of `main` (`for game_id in game_ids:` with the body
`fetch_game_reviews` / `prepare_review_text` / `rag.ainsert`, no
try/except): `step` is one body execution for one id, and an exception raised
by the body propagates out of the loop.  Returns the list of ids whose body
was entered, in order, and the exception that escaped, if any. -/
def run_main_loop (step : String → Except ε Unit) : List String → List String × Option ε
  | [] => ([], none)
  | game_id :: rest =>
      match step game_id with
      | Except.error e => ([game_id], some e)
      | Except.ok _ =>
          let r := run_main_loop step rest
          (game_id :: r.1, r.2)

/-! Concrete sample data for boundary instances and witnesses. -/

/-- A concrete well-formed review record (a validated record as pydantic would
produce it: integer score). -/
def sampleReview : GameReview :=
  { Outlet := { id := 56, name := "IGN", isContributor := false }
    ScoreFormat :=
      { id := 18, name := "0 to 10 incl decimals", shortName := "x/10.0"
        scoreDisplay := some "10 point", isNumeric := true, isSelect := false }
    game := { id := 9136, name := "Baldurs Gate 3" }
    overrideRecommendation := false
    isChosen := true
    title := some "A sprawling RPG"
    publishedDate := { year := 2023, month := 8, day := 3, hour := 12, minute := 0, second := 0 }
    externalUrl := "https://example.com/review"
    snippet := some "A landmark CRPG."
    language := "en"
    score := some (PyNum.int 10)
    npScore := some (PyNum.int 100)
    Authors := [{ id := 1, name := "A. Writer" }, { id := 2, name := "B. Critic" }]
    Platforms := [{ id := 6, name := "PC" , shortName := "PC" },
                  { id := 27, name := "PlayStation 5", shortName := "PS5" }] }

/-- `sampleReview` before the `convert_float_scores` fix-up: score `87.9`. -/
def sampleReviewFloat : GameReview :=
  { sampleReview with score := some (PyNum.float (879 / 10)) }

/-- `sampleReview` with an absent (`None`) score. -/
def sampleReviewNoScore : GameReview :=
  { sampleReview with score := none }

/-- A stand-in for `GameReview.model_validate` on raw records modeled as a
`Bool` well-formedness tag: `true` records validate to `sampleReview`, `false`
records raise. -/
def mvBool : Bool → Option GameReview :=
  fun b => if b then some sampleReview else none

/-- A `model_validate` stand-in on which every record raises. -/
def mvNone : Unit → Option GameReview :=
  fun _ => none

/-- A remote source whose every response has a non-success status. -/
def remoteFail : String → Option (List Unit) :=
  fun _ => none

/-- A remote source returning a one-record payload that validates. -/
def remoteOne : String → Option (List Bool) :=
  fun _ => some [true]

/-- A fresh world: empty cache directory, no requests, no writes (raw records
modeled as `Unit`). -/
def emptyState : FetchState Unit :=
  { cache := [], requests := 0, writes := 0 }

/-- A fresh world over `Bool`-tagged raw records. -/
def emptyStateBool : FetchState Bool :=
  { cache := [], requests := 0, writes := 0 }

/-- A world whose cache holds, for game id `9136`, a two-record payload of
which one record is malformed: 50% corruption, over the 10% threshold. -/
def corruptState : FetchState Bool :=
  { cache := [("9136", [false, true])], requests := 0, writes := 0 }

/-- A loop body for the driver that raises on game id `9136` and succeeds on
every other id. -/
def stepCE : String → Except String Unit :=
  fun game_id => if game_id = "9136" then Except.error "ValueError" else Except.ok ()

/-- An underlying completion call that always raises. -/
def failUnderlying : CompletionArgs → Except String String :=
  fun _ => Except.error "APIError"

/-- The block `prepare_review_text` actually produces for
`sampleReviewNoScore`: the absent score prints as `None`. -/
def noScoreBlockActual : String :=
  "Game Review: Baldurs Gate 3\n\nTitle: A sprawling RPG\n\nOutlet: IGN\n\n" ++
  "Author(s): A. Writer, B. Critic\n\nPublished: 2023-08-03\n\n" ++
  "Platform(s): PC, PlayStation 5\n\nScore: None (10 point)\n\n" ++
  "Review Text: A landmark CRPG.\n\nURL: https://example.com/review\n\n" ++
  sepLine ++ "\n"

/-- The block the claim predicts for `sampleReviewNoScore`, with the absent
score rendered as the empty string (this definition follows the claim's words,
to be compared with the source-derived output). -/
def noScoreBlockClaimed : String :=
  "Game Review: Baldurs Gate 3\n\nTitle: A sprawling RPG\n\nOutlet: IGN\n\n" ++
  "Author(s): A. Writer, B. Critic\n\nPublished: 2023-08-03\n\n" ++
  "Platform(s): PC, PlayStation 5\n\nScore:  (10 point)\n\n" ++
  "Review Text: A landmark CRPG.\n\nURL: https://example.com/review\n\n" ++
  sepLine ++ "\n"

/-! Helper lemmas shared by the claim theorems. -/

/-- The float comparison `error_count > len(data) * 0.1`, taken exactly over
ℚ, is the integer comparison `10 * error_count > len(data)`. -/
theorem threshold_char (k n : ℕ) : ((k : ℚ) > (n : ℚ) * (1 / 10)) ↔ 10 * k > n := by
  rw [gt_iff_lt, gt_iff_lt]
  constructor
  · intro h
    have h10 : (n : ℚ) < 10 * k := by linarith
    exact_mod_cast h10
  · intro h
    have h10 : (n : ℚ) < 10 * k := by exact_mod_cast h
    linarith

/-- The accumulation loop of `safe_validate_reviews` collects exactly the
successfully validated records, in input order, and counts the failures. -/
theorem foldl_validateStep (mv : α → Option GameReview) (data : List α)
    (acc : List GameReview × ℕ) :
    data.foldl (validateStep mv) acc =
      (acc.1 ++ data.filterMap mv, acc.2 + errorCount mv data) := by
  induction data generalizing acc with
  | nil => simp [errorCount]
  | cons d rest ih =>
      cases h : mv d with
      | some r => simp [validateStep, h, ih, errorCount, List.countP_cons]
      | none =>
          simp [validateStep, h, ih, errorCount, List.countP_cons]
          omega

/-- Closed form of `safe_validate_reviews`: reject when
`10 * errorCount > length`, else return the filtered records. -/
theorem safe_validate_char (mv : α → Option GameReview) (data : List α) :
    safe_validate_reviews mv data =
      if 10 * errorCount mv data > data.length then
        Except.error "Too many validation errors"
      else Except.ok (data.filterMap mv) := by
  unfold safe_validate_reviews
  rw [foldl_validateStep]
  simp only [List.nil_append, Nat.zero_add]
  by_cases h : 10 * errorCount mv data > data.length
  · rw [if_pos h, if_pos ((threshold_char _ _).mpr h)]
  · rw [if_neg h, if_neg (fun hq => h ((threshold_char _ _).mp hq))]

/-! The claim theorems. -/

/-- Claim C2: `safe_validate_reviews` raises its `ValueError` exactly when
`errorCount > 0.10 × totalRecords`; in particular a 10-record payload with 1
malformed record validates (10% exactly passes) and with 2 malformed records
(20%) is rejected. -/
theorem C2_validation_threshold :
    (∀ (α : Type) (mv : α → Option GameReview) (data : List α),
        safe_validate_reviews mv data = Except.error "Too many validation errors" ↔
          ((errorCount mv data : ℚ) > (data.length : ℚ) * (1 / 10))) ∧
    safe_validate_reviews mvBool
        [true, true, true, true, true, true, true, true, true, false] =
      Except.ok (List.replicate 9 sampleReview) ∧
    safe_validate_reviews mvBool
        [true, true, true, true, true, true, true, true, false, false] =
      Except.error "Too many validation errors" := by
  refine ⟨fun α mv data => ?_, by rw [safe_validate_char]; rfl, by rw [safe_validate_char]; rfl⟩
  rw [safe_validate_char, threshold_char]
  by_cases h : 10 * errorCount mv data > data.length
  · simp [h]
  · simp [h]

/-- Claim C7: when the error rate is within the threshold,
`safe_validate_reviews` returns exactly the records that individually validate,
in input order, failures simply omitted (`List.filterMap`). -/
theorem C7_validator_output (α : Type) (mv : α → Option GameReview) (data : List α)
    (h : 10 * errorCount mv data ≤ data.length) :
    safe_validate_reviews mv data = Except.ok (data.filterMap mv) := by
  rw [safe_validate_char, if_neg (by omega)]

/-- Witness for C7 at a concrete 10-record payload with one failure. -/
theorem C7_validator_output_witness :
    safe_validate_reviews mvBool
        [true, true, true, true, true, true, true, true, true, false] =
      Except.ok ([true, true, true, true, true, true, true, true, true, false].filterMap mvBool) :=
  C7_validator_output Bool mvBool
    [true, true, true, true, true, true, true, true, true, false] (by decide)

/-- Claim C10: validating an empty payload never rejects and returns the empty
record sequence (the rejection branch needs `error_count > 0`, impossible with
zero records, even though the ratio `errorCount / totalRecords` is undefined). -/
theorem C10_empty_payload (α : Type) (mv : α → Option GameReview) :
    safe_validate_reviews mv ([] : List α) = Except.ok [] := by
  rw [safe_validate_char]
  simp [errorCount]

/-- `String.intercalate.go` carries a left factor of its accumulator out. -/
theorem intercalate_go_left (s a : String) (l : List String) :
    ∀ x : String, String.intercalate.go (a ++ x) s l = a ++ String.intercalate.go x s l := by
  induction l with
  | nil => intro x; rfl
  | cons c cs ih =>
      intro x
      show String.intercalate.go (a ++ x ++ s ++ c) s cs =
        a ++ String.intercalate.go (x ++ s ++ c) s cs
      rw [String.append_assoc a x s, String.append_assoc a (x ++ s) c]
      exact ih ((x ++ s) ++ c)

/-- `str.join` over the concatenation of two nonempty lists splits at the
boundary with one separator. -/
theorem intercalate_append (s : String) (l1 l2 : List String) (h1 : l1 ≠ []) (h2 : l2 ≠ []) :
    String.intercalate s (l1 ++ l2) =
      String.intercalate s l1 ++ s ++ String.intercalate s l2 := by
  obtain ⟨a, l1', rfl⟩ : ∃ a l1', l1 = a :: l1' := by
    cases l1 with
    | nil => exact absurd rfl h1
    | cons a t => exact ⟨a, t, rfl⟩
  obtain ⟨b, l2', rfl⟩ : ∃ b l2', l2 = b :: l2' := by
    cases l2 with
    | nil => exact absurd rfl h2
    | cons b t => exact ⟨b, t, rfl⟩
  show String.intercalate.go a s (l1' ++ b :: l2') =
    String.intercalate.go a s l1' ++ s ++ String.intercalate.go b s l2'
  induction l1' generalizing a with
  | nil =>
      show String.intercalate.go (a ++ s ++ b) s l2' = a ++ s ++ String.intercalate.go b s l2'
      rw [String.append_assoc a s b]
      rw [intercalate_go_left s a l2' (s ++ b)]
      rw [intercalate_go_left s s l2' b]
      rw [String.append_assoc]
  | cons c cs ih =>
      show String.intercalate.go (a ++ s ++ c) s (cs ++ b :: l2') =
        String.intercalate.go (a ++ s ++ c) s cs ++ s ++ String.intercalate.go b s l2'
      exact ih (a ++ s ++ c) (by simp)

/-- A nonempty review list contributes a nonempty `text_parts` list. -/
theorem flatMap_recordParts_ne_nil (rs : List GameReview) (h : rs ≠ []) :
    rs.flatMap recordParts ≠ [] := by
  cases rs with
  | nil => exact absurd rfl h
  | cons r t => simp [recordParts]

/-- Claim C3: `convert_float_scores` truncates (not rounds) any score field
present as a float to an integer, uniformly on both `score` and `npScore`;
concretely `87.9` becomes `87`, while rounding would give `88`. -/
theorem C3_score_truncation :
    (∀ (r : GameReview) (q : ℚ),
        (r.score = some (PyNum.float q) →
          (convert_float_scores r).score = some (PyNum.int (truncToInt q))) ∧
        (r.npScore = some (PyNum.float q) →
          (convert_float_scores r).npScore = some (PyNum.int (truncToInt q)))) ∧
    (convert_float_scores sampleReviewFloat).score = some (PyNum.int 87) ∧
    truncToInt (879 / 10) = 87 ∧ round ((879 : ℚ) / 10) = 88 := by
  refine ⟨fun r q => ⟨fun hs => ?_, fun hn => ?_⟩, ?_,
    by norm_num [truncToInt], by rw [round_eq]; norm_num⟩
  · rcases hnp : r.npScore with _ | np
    · simp [convert_float_scores, hs, hnp]
    · cases np <;> simp [convert_float_scores, hs, hnp]
  · rcases hsc : r.score with _ | sc
    · simp [convert_float_scores, hn, hsc]
    · cases sc <;> simp [convert_float_scores, hn, hsc]
  · simp [sampleReviewFloat, convert_float_scores, sampleReview]
    norm_num [truncToInt]

/-- Witness for C3: the fix-up applied to the concrete record whose score is
the float `87.9`. -/
theorem C3_score_truncation_witness :
    sampleReviewFloat.score = some (PyNum.float (879 / 10)) ∧
    (convert_float_scores sampleReviewFloat).score =
      some (PyNum.int (truncToInt (879 / 10))) :=
  ⟨rfl, (C3_score_truncation.1 sampleReviewFloat (879 / 10)).1 rfl⟩

/-- Claim C9: `prepare_review_text` is a pure, deterministic function of its
input — it is embedded as a total function of the record list alone (no clock,
randomness or other state parameter appears in its definition), so identical
inputs give byte-identical output. -/
theorem C9_normalizer_deterministic (rs ss : List GameReview) (h : rs = ss) :
    prepare_review_text rs = prepare_review_text ss :=
  congrArg prepare_review_text h

/-- Witness for C9 at a concrete record list. -/
theorem C9_normalizer_deterministic_witness :
    prepare_review_text [sampleReview] = prepare_review_text [sampleReview] :=
  C9_normalizer_deterministic [sampleReview] [sampleReview] rfl

set_option maxRecDepth 8192 in
/-- Counterexample to claim C4 as stated: for a record with an absent score,
the score line renders the absent value as the four letters `None` (Python
f-string of `None`), not as the empty string the claim predicts. -/
theorem C4_counterexample :
    prepare_review_text [sampleReviewNoScore] = noScoreBlockActual ∧
    prepare_review_text [sampleReviewNoScore] ≠ noScoreBlockClaimed := by
  constructor
  · decide
  · decide

/-- Claim C4 (amended): a single record's block contains, in order, the
subject-name, title, outlet, comma-joined authors, `YYYY-MM-DD` date,
comma-joined platforms, score (rendered as `None` when absent) paired with the
score-display label, snippet, URL, and 80-character separator lines, each line
followed by a blank line; blocks of multiple records are concatenated in input
record order, separated by a blank line. -/
theorem C4_block_structure :
    (∀ r : GameReview,
        prepare_review_text [r] =
          "Game Review: " ++ r.game.name ++ "\n" ++ "\n" ++
          "Title: " ++ pyOptStr r.title ++ "\n" ++ "\n" ++
          "Outlet: " ++ r.Outlet.name ++ "\n" ++ "\n" ++
          "Author(s): " ++ String.intercalate ", " (r.Authors.map Author.name) ++ "\n" ++ "\n" ++
          "Published: " ++ strftimeYMD r.publishedDate ++ "\n" ++ "\n" ++
          "Platform(s): " ++ String.intercalate ", " (r.Platforms.map Platform.name) ++ "\n" ++ "\n" ++
          "Score: " ++ pyScoreStr r.score ++ " (" ++ pyOptStr r.ScoreFormat.scoreDisplay ++ ")" ++ "\n" ++ "\n" ++
          "Review Text: " ++ pyOptStr r.snippet ++ "\n" ++ "\n" ++
          "URL: " ++ r.externalUrl ++ "\n" ++ "\n" ++
          sepLine ++ "\n") ∧
    sepLine.length = 80 ∧
    (∀ rs ss : List GameReview, rs ≠ [] → ss ≠ [] →
        prepare_review_text (rs ++ ss) =
          prepare_review_text rs ++ "\n" ++ prepare_review_text ss) := by
  refine ⟨fun r => ?_, by decide, fun rs ss h1 h2 => ?_⟩
  · simp only [prepare_review_text, List.flatMap_cons, List.flatMap_nil, List.append_nil,
      recordParts, String.intercalate, String.intercalate.go]
    simp only [String.append_assoc]
  · unfold prepare_review_text
    rw [List.flatMap_append]
    exact intercalate_append "\n" _ _ (flatMap_recordParts_ne_nil rs h1)
      (flatMap_recordParts_ne_nil ss h2)

/-- Witness for C4 (amended) at two concrete one-record lists. -/
theorem C4_block_structure_witness :
    prepare_review_text ([sampleReview] ++ [sampleReviewNoScore]) =
      prepare_review_text [sampleReview] ++ "\n" ++ prepare_review_text [sampleReviewNoScore] :=
  C4_block_structure.2.2 [sampleReview] [sampleReviewNoScore] (by simp) (by simp)

/-- On a cache hit the fetcher validates the cached payload and leaves the
world untouched. -/
theorem fetch_hit (mv : α → Option GameReview) (remote : String → Option (List α))
    (game_id : String) (s : FetchState α) (d : List α)
    (hl : s.cache.lookup game_id = some d) :
    fetch_game_reviews mv remote game_id s =
      ((safe_validate_reviews mv d).mapError FetchError.validationRejected, s) := by
  cases hsv : safe_validate_reviews mv d <;>
    simp [fetch_game_reviews, hl, hsv, Except.mapError]

/-- On a cache miss with a successful remote fetch, the fetcher issues one
request, performs one cache write, and validates the fetched payload. -/
theorem fetch_miss_ok (mv : α → Option GameReview) (remote : String → Option (List α))
    (game_id : String) (s : FetchState α) (data : List α)
    (hl : s.cache.lookup game_id = none) (hr : remote game_id = some data) :
    fetch_game_reviews mv remote game_id s =
      ((safe_validate_reviews mv data).mapError FetchError.validationRejected,
       { cache := (game_id, data) :: s.cache,
         requests := s.requests + 1, writes := s.writes + 1 }) := by
  cases hsv : safe_validate_reviews mv data <;>
    simp [fetch_game_reviews, hl, hr, hsv, Except.mapError]

/-- On a cache miss with a failing remote fetch, the fetcher raises before the
cache write: one request, no write, cache unchanged. -/
theorem fetch_miss_fail (mv : α → Option GameReview) (remote : String → Option (List α))
    (game_id : String) (s : FetchState α)
    (hl : s.cache.lookup game_id = none) (hr : remote game_id = none) :
    fetch_game_reviews mv remote game_id s =
      (Except.error FetchError.remoteError, { s with requests := s.requests + 1 }) := by
  simp [fetch_game_reviews, hl, hr]

/-- Looking up the key just written finds the written payload. -/
theorem lookup_cons_self (game_id : String) (data : List α) (c : List (String × List α)) :
    List.lookup game_id ((game_id, data) :: c) = some data := by
  simp [List.lookup]

/-- Counterexample to claim C5 as stated: for an entity id whose remote fetch
fails, nothing is cached, so two calls of `fetch` issue two remote requests,
not at most one. -/
theorem C5_counterexample :
    emptyState.cache.lookup "9136" = none ∧
    (fetch_game_reviews mvNone remoteFail "9136"
        (fetch_game_reviews mvNone remoteFail "9136" emptyState).2).2.requests = 2 ∧
    ¬ ((fetch_game_reviews mvNone remoteFail "9136"
        (fetch_game_reviews mvNone remoteFail "9136" emptyState).2).2.requests ≤ 1) := by
  refine ⟨rfl, ?_, ?_⟩ <;> decide

/-- Claim C5 (amended): provided the cache already holds an entry for the id
or the remote fetch for it succeeds, calling `fetch` twice with no intervening
cache wipe issues at most one remote request and returns identical results
both times. -/
theorem C5_cache_idempotence (α : Type) (mv : α → Option GameReview)
    (remote : String → Option (List α)) (game_id : String) (s : FetchState α)
    (h : (s.cache.lookup game_id).isSome ∨ (remote game_id).isSome) :
    (fetch_game_reviews mv remote game_id
        (fetch_game_reviews mv remote game_id s).2).2.requests ≤ s.requests + 1 ∧
    (fetch_game_reviews mv remote game_id s).1 =
      (fetch_game_reviews mv remote game_id
        (fetch_game_reviews mv remote game_id s).2).1 := by
  cases hl : s.cache.lookup game_id with
  | some d =>
      rw [fetch_hit mv remote game_id s d hl]
      rw [fetch_hit mv remote game_id s d hl]
      exact ⟨Nat.le_succ _, rfl⟩
  | none =>
      rcases h with h | h
      · rw [hl] at h; simp at h
      · obtain ⟨data, hd⟩ := Option.isSome_iff_exists.mp h
        rw [fetch_miss_ok mv remote game_id s data hl hd]
        rw [fetch_hit mv remote game_id _ data (lookup_cons_self game_id data s.cache)]
        exact ⟨Nat.le_refl _, rfl⟩

/-- Witness for C5 (amended): a double fetch against an empty cache with a
succeeding remote source. -/
theorem C5_cache_idempotence_witness :
    (fetch_game_reviews mvBool remoteOne "9136"
        (fetch_game_reviews mvBool remoteOne "9136" emptyStateBool).2).2.requests ≤
      emptyStateBool.requests + 1 ∧
    (fetch_game_reviews mvBool remoteOne "9136" emptyStateBool).1 =
      (fetch_game_reviews mvBool remoteOne "9136"
        (fetch_game_reviews mvBool remoteOne "9136" emptyStateBool).2).1 :=
  C5_cache_idempotence Bool mvBool remoteOne "9136" emptyStateBool (Or.inr rfl)

/-- Counterexample to claim C6 as stated: when the cache has no entry for the
id but the remote request fails, `fetch` performs zero cache writes, not
exactly one. -/
theorem C6_counterexample :
    emptyState.cache.lookup "9136" = none ∧
    (fetch_game_reviews mvNone remoteFail "9136" emptyState).2.writes = 0 ∧
    ¬ ((fetch_game_reviews mvNone remoteFail "9136" emptyState).2.writes = 1) := by
  refine ⟨rfl, ?_, ?_⟩ <;> decide

/-- Claim C6 (amended): on a cache hit, zero writes, zero requests, cache
untouched, and the result is the validation of the cached payload — so a
cached payload over the 10% threshold raises the rejection on every re-read
without re-fetching or modifying the entry; on a miss whose remote fetch
succeeds, exactly one cache write (and one request); on a miss whose remote
fetch fails, zero cache writes. -/
theorem C6_cache_write_frame (α : Type) (mv : α → Option GameReview)
    (remote : String → Option (List α)) (game_id : String) (s : FetchState α) :
    (∀ d, s.cache.lookup game_id = some d →
        fetch_game_reviews mv remote game_id s =
          ((safe_validate_reviews mv d).mapError FetchError.validationRejected, s)) ∧
    (∀ data, s.cache.lookup game_id = none → remote game_id = some data →
        (fetch_game_reviews mv remote game_id s).2.writes = s.writes + 1 ∧
        (fetch_game_reviews mv remote game_id s).2.requests = s.requests + 1 ∧
        (fetch_game_reviews mv remote game_id s).2.cache = (game_id, data) :: s.cache) ∧
    (s.cache.lookup game_id = none → remote game_id = none →
        fetch_game_reviews mv remote game_id s =
          (Except.error FetchError.remoteError, { s with requests := s.requests + 1 })) := by
  refine ⟨fun d hd => fetch_hit mv remote game_id s d hd,
    fun data hl hr => ?_, fun hl hr => fetch_miss_fail mv remote game_id s hl hr⟩
  rw [fetch_miss_ok mv remote game_id s data hl hr]
  exact ⟨rfl, rfl, rfl⟩

/-- Witness for C6 (amended): re-reading a cached payload with 50% corruption
raises the rejection and leaves the world — the corrupt entry included —
untouched. -/
theorem C6_cache_write_frame_witness :
    fetch_game_reviews mvBool remoteOne "9136" corruptState =
      (Except.error (FetchError.validationRejected "Too many validation errors"),
       corruptState) := by
  have h := (C6_cache_write_frame Bool mvBool remoteOne "9136" corruptState).1 [false, true] rfl
  rw [h, safe_validate_char]
  rfl

/-- Counterexample to claim C1 as stated: the driver loop has no per-id
exception handling, so when the first of two game ids fails, the second is
never processed — the failure aborts the batch run instead of being skipped. -/
theorem C1_counterexample :
    stepCE "9136" = Except.error "ValueError" ∧
    run_main_loop stepCE ["9136", "12345"] = (["9136"], some "ValueError") ∧
    ¬ ("12345" ∈ (run_main_loop stepCE ["9136", "12345"]).1) := by
  refine ⟨rfl, rfl, ?_⟩
  decide

/-- Claim C1 (amended): when processing one entity id fails at any stage, the
exception propagates out of the driver loop and aborts the run — the ids
before the first failing id are processed, the failing id is attempted, and no
subsequent id is processed. -/
theorem C1_failure_aborts_run (ε : Type) (step : String → Except ε Unit)
    (pre post : List String) (bad : String) (e : ε)
    (hpre : ∀ i ∈ pre, step i = Except.ok ())
    (hbad : step bad = Except.error e) :
    run_main_loop step (pre ++ bad :: post) = (pre ++ [bad], some e) := by
  induction pre with
  | nil => simp [run_main_loop, hbad]
  | cons a t ih =>
      have ha : step a = Except.ok () := hpre a (by simp)
      have ht : ∀ i ∈ t, step i = Except.ok () := fun i hi => hpre i (by simp [hi])
      simp [run_main_loop, ha, ih ht]

/-- Witness for C1 (amended): one succeeding id, then the failing id, then an
id that is never reached. -/
theorem C1_failure_aborts_run_witness :
    run_main_loop stepCE (["4567"] ++ "9136" :: ["12345"]) =
      (["4567"] ++ ["9136"], some "ValueError") :=
  C1_failure_aborts_run String stepCE ["4567"] ["12345"] "9136" "ValueError"
    (by intro i hi; simp at hi; subst hi; rfl) rfl

/-- Claim C8: the wrapper calls the underlying completion with
`max_retries = 0` (zero transport-level automatic retries) and returns its
value unchanged; on failure it logs exactly one structured diagnostic whose
token count is `len(prompt) // 4` and re-raises the same failure; on success
nothing is logged — it never swallows a failure or substitutes a result. -/
theorem C8_wrapper_transparent (ε : Type) (underlying : CompletionArgs → Except ε String)
    (prompt : String) (system_prompt : Option String) (history_messages : List String)
    (keyword_extraction : Bool) :
    (gpt4o_mini_complete_with_retries underlying prompt system_prompt history_messages
        keyword_extraction).1 =
      underlying ⟨prompt, system_prompt, history_messages, keyword_extraction, 0⟩ ∧
    (∀ e, underlying ⟨prompt, system_prompt, history_messages, keyword_extraction, 0⟩ =
            Except.error e →
        gpt4o_mini_complete_with_retries underlying prompt system_prompt history_messages
            keyword_extraction =
          (Except.error e,
           [⟨prompt.length / 4, system_prompt, history_messages, keyword_extraction⟩])) ∧
    (∀ out, underlying ⟨prompt, system_prompt, history_messages, keyword_extraction, 0⟩ =
            Except.ok out →
        gpt4o_mini_complete_with_retries underlying prompt system_prompt history_messages
            keyword_extraction = (Except.ok out, [])) := by
  cases hu : underlying ⟨prompt, system_prompt, history_messages, keyword_extraction, 0⟩ with
  | ok out' =>
      refine ⟨by simp [gpt4o_mini_complete_with_retries, hu],
        fun e he => absurd he (by simp), fun out ho => ?_⟩
      obtain rfl : out' = out := by injection ho
      simp [gpt4o_mini_complete_with_retries, hu]
  | error e' =>
      refine ⟨by simp [gpt4o_mini_complete_with_retries, hu],
        fun e he => ?_, fun out ho => absurd ho (by simp)⟩
      obtain rfl : e' = e := by injection he
      simp [gpt4o_mini_complete_with_retries, hu]

/-- Witness for C8: a failing underlying call on an 8-character prompt —
the same failure is re-raised and one diagnostic with token count 2 logged. -/
theorem C8_wrapper_transparent_witness :
    gpt4o_mini_complete_with_retries failUnderlying "abcdefgh" none [] false =
      (Except.error "APIError", [⟨2, none, [], false⟩]) :=
  (C8_wrapper_transparent String failUnderlying "abcdefgh" none [] false).2.1 "APIError" rfl

end LightRAG
